import Mathlib

/-!
Verification of the restate-worker adapter (src/lib.rs).

The crate is a thin adapter between the Restate SDK's HTTP handler
(`Endpoint::handle_with_options`) and the Cloudflare Workers runtime
(`worker::Body`, `worker::Result`).  The adapter:

* hard-codes `ProtocolMode::RequestResponse` on every endpoint call,
* converts the SDK response body's data-frame stream into a Workers
  `Body` via `Body::from_stream(body.into_data_stream())?`,
* keeps the response parts (status, headers) unchanged.

The `Endpoint` (Restate SDK) and `Body::from_stream` (worker crate) are
external dependencies: the `Endpoint` is embedded as an opaque function from
requests and handle options to responses, and `Body::from_stream` is
parameterised by an opaque `Host` that decides whether the runtime rejects a
given chunk stream (the only behaviour the adapter relies on, per the crate
documentation: `from_stream` either fails or yields a body streaming exactly
the given chunks).
-/

namespace RestateWorker

/-- One byte chunk of a streaming body (bytes as naturals). -/
abbrev Chunk := List Nat

/-- An `http_body` frame: either a data chunk or a trailers frame. -/
inductive Frame where
  | data (payload : Chunk)
  | trailers (fields : List (String × String))
  deriving DecidableEq

/-- SDK-native response body: a finite, ordered, single-pass sequence of
frames, embedded as a list. -/
abbrev SdkBody := List Frame

/-- Embeds `http_body_util::BodyExt::into_data_stream`: the stream of the
data frames of the body, in order; non-data (trailers) frames are skipped. -/
def SdkBody.into_data_stream (b : SdkBody) : List Chunk :=
  b.filterMap fun f =>
    match f with
    | Frame.data payload => some payload
    | Frame.trailers _ => none

/-- Response parts: status code and headers (`http::response::Parts`). -/
structure Parts where
  status : Nat
  headers : List (String × String)
  deriving DecidableEq

/-- An `http::Response` with body type `B`. -/
structure Response (B : Type) where
  parts : Parts
  body : B
  deriving DecidableEq

/-- Embeds `http::Response::into_parts`. -/
def Response.into_parts {B : Type} (r : Response B) : Parts × B :=
  (r.parts, r.body)

/-- Embeds `http::Response::from_parts`. -/
def Response.from_parts {B : Type} (p : Parts) (b : B) : Response B :=
  { parts := p, body := b }

/-- Embeds `restate_sdk::prelude::ProtocolMode`. -/
inductive ProtocolMode where
  | BidiStream
  | RequestResponse
  deriving DecidableEq

/-- Embeds `restate_sdk::prelude::HandleOptions`. -/
structure HandleOptions where
  protocol_mode : ProtocolMode
  deriving DecidableEq

/-- Embeds `worker::Body` as the sequence of byte chunks it streams. -/
structure Body where
  chunks : List Chunk
  deriving DecidableEq

/-- Embeds an `http::Request` with a Workers-native `Body`. -/
structure Request where
  method : String
  uri : String
  headers : List (String × String)
  body : Body
  deriving DecidableEq

/-- The opaque host runtime behaviour behind `worker::Body::from_stream`:
`rejects s = some e` means the runtime's body constructor fails with error
`e` on the chunk stream `s`, `none` means it succeeds. -/
structure Host where
  rejects : List Chunk → Option String

/-- Modelled from the crate's external dependency `worker::Body::from_stream`
(worker crate, not part of this repository): it either fails with a
runtime-level error or produces a `Body` that streams exactly the chunks of
the given stream, in order. -/
def Body.from_stream (host : Host) (s : List Chunk) : Except String Body :=
  match host.rejects s with
  | some e => Except.error e
  | none => Except.ok { chunks := s }

/-- Embeds the opaque `restate_sdk::prelude::Endpoint`: a bound set of
service handlers, seen by the adapter only through `handle_with_options`.
Dispatch failures inside the endpoint are, as in the SDK, carried in the
returned response (the call itself is infallible in the source: no `?`). -/
structure Endpoint where
  handle_with_options : Request → HandleOptions → Response SdkBody

/-- Modelled from the spec: `Endpoint::builder().build()` with no services
bound — some concrete default endpoint value (its dispatch behaviour is
opaque and irrelevant to the adapter). -/
def Endpoint.emptyBuild : Endpoint :=
  { handle_with_options := fun _ _ =>
      { parts := { status := 404, headers := [] }, body := [] } }

/-- Embeds `restate_worker::Handler` (src/lib.rs lines 37-39). -/
structure Handler where
  endpoint : Endpoint

/-- Embeds `Handler::new` (src/lib.rs lines 43-45). -/
def Handler.new (endpoint : Endpoint) : Handler :=
  { endpoint := endpoint }

/-- Embeds `Handler::handle` (src/lib.rs lines 52-64).  The `match` mirrors
the `?` operator on `Body::from_stream`: an error is returned to the caller
unchanged, otherwise the response is rebuilt from the original parts and the
converted body. -/
def Handler.handle (host : Host) (self : Handler) (req : Request) :
    Except String (Response Body) :=
  let response := self.endpoint.handle_with_options req
    { protocol_mode := ProtocolMode.RequestResponse }
  let pb := response.into_parts
  match Body.from_stream host (SdkBody.into_data_stream pb.2) with
  | Except.error e => Except.error e
  | Except.ok body => Except.ok (Response.from_parts pb.1 body)

/-- Instrumented endpoint call: same value as `handle_with_options`, paired
with the one-element trace of the call made (request and options as passed). -/
def Endpoint.handle_with_options_traced (e : Endpoint) (req : Request)
    (opts : HandleOptions) :
    Response SdkBody × List (Request × HandleOptions) :=
  (e.handle_with_options req opts, [(req, opts)])

/-- Instrumentation of `Handler::handle`: the same computation, step for
step, additionally returning the trace of endpoint calls it makes. -/
def Handler.handleT (host : Host) (self : Handler) (req : Request) :
    Except String (Response Body) × List (Request × HandleOptions) :=
  let rt := Endpoint.handle_with_options_traced self.endpoint req
    { protocol_mode := ProtocolMode.RequestResponse }
  let pb := rt.1.into_parts
  match Body.from_stream host (SdkBody.into_data_stream pb.2) with
  | Except.error e => (Except.error e, rt.2)
  | Except.ok body => (Except.ok (Response.from_parts pb.1 body), rt.2)

/-- A sequence of `handle` calls on one handler, threading the handler
through explicitly.  `Handler::handle` takes `&self` and returns only the
response, so each step passes the handler on unchanged — this is the shallow
embedding of the Rust borrow discipline of src/lib.rs line 52. -/
def Handler.handleAll (host : Host) (self : Handler) :
    List Request → Handler × List (Except String (Response Body))
  | [] => (self, [])
  | r :: rs =>
    let out := Handler.handle host self r
    let rest := Handler.handleAll host self rs
    (rest.1, out :: rest.2)

/-- The response the endpoint produces for `req` under the options the
adapter passes (request-response mode). -/
def Handler.endpointResponse (self : Handler) (req : Request) :
    Response SdkBody :=
  self.endpoint.handle_with_options req
    { protocol_mode := ProtocolMode.RequestResponse }

/-- The chunk stream the adapter feeds to `Body::from_stream`: the data
stream of the endpoint response's body. -/
def Handler.responseStream (self : Handler) (req : Request) : List Chunk :=
  SdkBody.into_data_stream (Handler.endpointResponse self req).body

/-! Concrete sample values used by witness theorems. -/

/-- A concrete endpoint returning a fixed 200 response with body "ping". -/
def sampleEndpoint : Endpoint :=
  { handle_with_options := fun _ _ =>
      { parts := { status := 200, headers := [("content-type", "application/restate")] },
        body := [Frame.data [112, 105, 110, 103], Frame.trailers [("x-end", "1")]] } }

/-- A handler wrapping the sample endpoint. -/
def sampleHandler : Handler := Handler.new sampleEndpoint

/-- A concrete request. -/
def sampleRequest : Request :=
  { method := "POST", uri := "/invoke/Echo/ping", headers := [],
    body := { chunks := [[112, 105, 110, 103]] } }

/-- A host whose body constructor accepts every stream. -/
def acceptHost : Host := { rejects := fun _ => none }

/-- A host whose body constructor rejects every stream. -/
def rejectHost : Host := { rejects := fun _ => some "body conversion failed" }

/-- The Ok response `handle` produces for the sample inputs. -/
def sampleOkResponse : Response Body :=
  { parts := { status := 200, headers := [("content-type", "application/restate")] },
    body := { chunks := [[112, 105, 110, 103]] } }

/-! Helper lemmas shared by the claim theorems. -/

/-- Helper: a successful `Body.from_stream` yields a body streaming exactly
the input chunks. -/
theorem Body.from_stream_ok {host : Host} {s : List Chunk} {b : Body}
    (h : Body.from_stream host s = Except.ok b) : b.chunks = s := by
  unfold Body.from_stream at h
  cases hr : host.rejects s <;> rw [hr] at h
  · injection h with h2
    rw [← h2]
  · cases h

/-- Helper: `handle` written as a single match on the body construction. -/
theorem Handler.handle_eq (host : Host) (h : Handler) (req : Request) :
    Handler.handle host h req =
      match Body.from_stream host (Handler.responseStream h req) with
      | Except.error e => Except.error e
      | Except.ok b =>
          Except.ok (Response.from_parts (Handler.endpointResponse h req).parts b) :=
  rfl

/-- Helper: the instrumented computation equals the plain one, paired with
the one endpoint call `handle` makes. -/
theorem Handler.handleT_eq (host : Host) (h : Handler) (req : Request) :
    Handler.handleT host h req =
      (Handler.handle host h req,
       [(req, { protocol_mode := ProtocolMode.RequestResponse })]) := by
  simp only [Handler.handleT, Handler.handle, Endpoint.handle_with_options_traced,
    Response.into_parts]
  cases Body.from_stream host (SdkBody.into_data_stream
      (h.endpoint.handle_with_options req
        { protocol_mode := ProtocolMode.RequestResponse }).body) <;> rfl

/-! Claim theorems. -/

/-- C1: every endpoint call made by `Handler::handle` (the calls recorded by
the instrumented computation) carries options whose `protocol_mode` is
`RequestResponse`; no request and no handler construction can make the
adapter select any other (in particular a streaming) mode. -/
theorem handle_protocol_mode_always_request_response
    (host : Host) (h : Handler) (req : Request) (c : Request × HandleOptions)
    (hc : c ∈ (Handler.handleT host h req).2) :
    c.2.protocol_mode = ProtocolMode.RequestResponse := by
  rw [Handler.handleT_eq] at hc
  simp only [List.mem_singleton] at hc
  rw [hc]

/-- Witness for C1 at concrete inputs. -/
theorem handle_protocol_mode_always_request_response_witness :
    ((sampleRequest, ({ protocol_mode := ProtocolMode.RequestResponse } : HandleOptions)) ∈
        (Handler.handleT acceptHost sampleHandler sampleRequest).2) ∧
      (ProtocolMode.RequestResponse = ProtocolMode.RequestResponse) :=
  ⟨by decide,
   handle_protocol_mode_always_request_response acceptHost sampleHandler sampleRequest
     (sampleRequest, { protocol_mode := ProtocolMode.RequestResponse }) (by decide)⟩

/-- C2: whenever `handle` returns Ok, the chunk sequence of the returned
body equals, chunk for chunk and in order, the data stream of the body the
endpoint produced for the request under request-response mode: the body
conversion is lossless and order-preserving. -/
theorem handle_body_bytes_preserved
    (host : Host) (h : Handler) (req : Request) (resp : Response Body)
    (hok : Handler.handle host h req = Except.ok resp) :
    resp.body.chunks =
      SdkBody.into_data_stream (Handler.endpointResponse h req).body := by
  rw [Handler.handle_eq] at hok
  cases hfs : Body.from_stream host (Handler.responseStream h req) <;> rw [hfs] at hok
  · cases hok
  · injection hok with h2
    rw [← h2]
    exact Body.from_stream_ok hfs

/-- Witness for C2 at concrete inputs. -/
theorem handle_body_bytes_preserved_witness :
    sampleOkResponse.body.chunks =
      SdkBody.into_data_stream (Handler.endpointResponse sampleHandler sampleRequest).body :=
  handle_body_bytes_preserved acceptHost sampleHandler sampleRequest sampleOkResponse rfl

/-- C3: whenever `handle` returns Ok, the parts (status and headers) of the
returned response are exactly those of the response the endpoint produced
for the request under request-response mode; only the body is replaced. -/
theorem handle_parts_preserved
    (host : Host) (h : Handler) (req : Request) (resp : Response Body)
    (hok : Handler.handle host h req = Except.ok resp) :
    resp.parts = (Handler.endpointResponse h req).parts := by
  rw [Handler.handle_eq] at hok
  cases hfs : Body.from_stream host (Handler.responseStream h req) <;> rw [hfs] at hok
  · cases hok
  · injection hok with h2
    rw [← h2]
    rfl

/-- Witness for C3 at concrete inputs. -/
theorem handle_parts_preserved_witness :
    sampleOkResponse.parts = (Handler.endpointResponse sampleHandler sampleRequest).parts :=
  handle_parts_preserved acceptHost sampleHandler sampleRequest sampleOkResponse rfl

/-- C4: the only failure the adapter itself can produce is the failure of
`Body::from_stream` on the converted stream: if body construction fails,
`handle` returns exactly that error (it is total, so it neither panics nor
returns a truncated body), and every error `handle` returns arises from that
body construction — there is no other adapter-introduced error path. -/
theorem handle_error_only_from_body_construction
    (host : Host) (h : Handler) (req : Request) (e : String) :
    (Body.from_stream host (Handler.responseStream h req) = Except.error e →
      Handler.handle host h req = Except.error e) ∧
    (Handler.handle host h req = Except.error e →
      Body.from_stream host (Handler.responseStream h req) = Except.error e) := by
  rw [Handler.handle_eq]
  cases Body.from_stream host (Handler.responseStream h req)
  · refine ⟨fun hf => ?_, fun hh => ?_⟩
    · injection hf with h2
      subst h2
      rfl
    · injection hh with h2
      subst h2
      rfl
  · exact ⟨fun hf => (nomatch hf), fun hh => nomatch hh⟩

/-- Witness for C4: on a host that rejects every stream, `handle` surfaces
exactly the rejection error. -/
theorem handle_error_only_from_body_construction_witness :
    Handler.handle rejectHost sampleHandler sampleRequest =
      Except.error "body conversion failed" :=
  (handle_error_only_from_body_construction rejectHost sampleHandler sampleRequest
    "body conversion failed").1 rfl

/-- C5: `handle` is a uniform transport of the endpoint's response: the
result is exactly the body construction's result mapped under rebuilding the
response from the endpoint's own parts and the converted body, with no
inspection of the response's content.  In particular any dispatch failure
inside the endpoint — which the SDK carries in the returned response — is
passed through to the caller unchanged, neither inspected, wrapped, nor
reinterpreted. -/
theorem handle_passes_endpoint_response_through
    (host : Host) (h : Handler) (req : Request) :
    Handler.handle host h req =
      Except.map (fun b => Response.from_parts (Handler.endpointResponse h req).parts b)
        (Body.from_stream host (Handler.responseStream h req)) := by
  rw [Handler.handle_eq]
  cases Body.from_stream host (Handler.responseStream h req) <;> rfl

/-- C6: `Handler::new` accepts any endpoint without validation and produces
the handler wrapping exactly that endpoint; in particular construction from
the default/empty endpoint succeeds and wraps it. -/
theorem handler_new_accepts_any_endpoint (e : Endpoint) :
    Handler.new e = { endpoint := e } ∧ (Handler.new e).endpoint = e ∧
      (Handler.new Endpoint.emptyBuild).endpoint = Endpoint.emptyBuild :=
  ⟨rfl, rfl, rfl⟩

/-- C7: the handler's only state is its endpoint (it is the handler `new`
rebuilds from that endpoint), and a sequence of `handle` calls leaves the
handler unchanged while each call's result depends only on the handler and
its own request — no state is retained across invocations. -/
theorem handler_stateless (host : Host) (h : Handler) (reqs : List Request) :
    h = Handler.new h.endpoint ∧
      (Handler.handleAll host h reqs).1 = h ∧
      (Handler.handleAll host h reqs).2 = reqs.map (Handler.handle host h) := by
  refine ⟨rfl, ?_, ?_⟩ <;> induction reqs with
  | nil => rfl
  | cons r rs ih => simp only [Handler.handleAll, List.map_cons, ih]

/-- C8: `handle` is deterministic: two invocations whose endpoints behave
the same on this request under request-response mode, and whose hosts behave
the same as body constructors, produce identical results (same Ok or Err,
same parts, same body chunks). -/
theorem handle_deterministic
    (host₁ host₂ : Host) (h₁ h₂ : Handler) (req : Request)
    (hend : h₁.endpoint.handle_with_options req
        { protocol_mode := ProtocolMode.RequestResponse } =
      h₂.endpoint.handle_with_options req
        { protocol_mode := ProtocolMode.RequestResponse })
    (hhost : ∀ s, host₁.rejects s = host₂.rejects s) :
    Handler.handle host₁ h₁ req = Handler.handle host₂ h₂ req := by
  rw [Handler.handle_eq, Handler.handle_eq]
  have hresp : Handler.endpointResponse h₁ req = Handler.endpointResponse h₂ req := hend
  have hstream : Handler.responseStream h₁ req = Handler.responseStream h₂ req := by
    unfold Handler.responseStream
    rw [hresp]
  have hfs : Body.from_stream host₁ (Handler.responseStream h₁ req) =
      Body.from_stream host₂ (Handler.responseStream h₂ req) := by
    rw [hstream]
    unfold Body.from_stream
    rw [hhost]
  rw [hfs, hresp]

/-- Witness for C8 at concrete inputs. -/
theorem handle_deterministic_witness :
    Handler.handle acceptHost sampleHandler sampleRequest =
      Handler.handle acceptHost sampleHandler sampleRequest :=
  handle_deterministic acceptHost acceptHost sampleHandler sampleHandler sampleRequest
    rfl (fun _ => rfl)

/-- C9: `handle` returns Ok exactly when `Body::from_stream` on the data
stream of the endpoint response's body succeeds, and it returns error `e`
exactly when that body construction fails with `e` — the constructor's error
is propagated without wrapping or modification. -/
theorem handle_ok_iff_body_construction_ok
    (host : Host) (h : Handler) (req : Request) :
    ((∃ resp, Handler.handle host h req = Except.ok resp) ↔
      (∃ b, Body.from_stream host (Handler.responseStream h req) = Except.ok b)) ∧
    (∀ e, Handler.handle host h req = Except.error e ↔
      Body.from_stream host (Handler.responseStream h req) = Except.error e) := by
  rw [Handler.handle_eq]
  cases Body.from_stream host (Handler.responseStream h req) <;> simp

/-- Witness for C9: an Ok outcome at concrete inputs obtained through the
claim theorem. -/
theorem handle_ok_iff_body_construction_ok_witness :
    ∃ resp, Handler.handle acceptHost sampleHandler sampleRequest = Except.ok resp :=
  (handle_ok_iff_body_construction_ok acceptHost sampleHandler sampleRequest).1.mpr
    ⟨{ chunks := [[112, 105, 110, 103]] }, rfl⟩

/-- C10: `handle` forwards the caller's request to the endpoint verbatim and
invokes the endpoint exactly once: the instrumented computation records
exactly one endpoint call, whose request is the input request unmodified
(hence with its method, URI, headers and body unmodified) and whose options
are the fixed request-response options, and its result is that of `handle`. -/
theorem handle_forwards_request_verbatim_once
    (host : Host) (h : Handler) (req : Request) :
    (Handler.handleT host h req).2 =
        [(req, { protocol_mode := ProtocolMode.RequestResponse })] ∧
      (Handler.handleT host h req).1 = Handler.handle host h req := by
  rw [Handler.handleT_eq]
  exact ⟨rfl, rfl⟩

end RestateWorker
